import Mathlib

set_option maxHeartbeats 1000000

/- Shallow embedding of the turf crate: the settings module
   (turf_internals/src/settings.rs) and the macro front end
   (turf_macros/src/lib.rs).  Rust PathBuf values are modelled as String,
   u8 components as Nat (the encoder applies the source's explicit 0xff
   masks), and the two OnceLock cells as an explicit state record that is
   threaded through the profile-resolution functions together with a
   counter of Manifest Loader consultations. -/

/-- FileOutput from settings.rs: two optional output paths. -/
structure FileOutput where
  global_css_file_path : Option String
  separate_css_files_path : Option String
deriving DecidableEq

/-- DEFAULT_CLASS_NAME_TEMPLATE from settings.rs. -/
def DEFAULT_CLASS_NAME_TEMPLATE : String := "class-<id>"

/-- ClassNameGeneration from settings.rs: a template and an exclude list. -/
structure ClassNameGeneration where
  template : String
  excludes : List String
deriving DecidableEq

/-- Default for ClassNameGeneration from settings.rs. -/
def ClassNameGeneration.default : ClassNameGeneration :=
  { template := DEFAULT_CLASS_NAME_TEMPLATE, excludes := [] }

/-- DEFAULT_MINIFY from settings.rs. -/
def DEFAULT_MINIFY : Bool := true

/-- BrowserVersion from settings.rs: four literal shapes.  The Rust
    components are u8; they are embedded as Nat and the encoder keeps the
    source's explicit `& 0xff` masks. -/
inductive BrowserVersion where
  | Major : Nat → BrowserVersion
  | MajorSingleValueArray : Nat → BrowserVersion
  | MajorMinor : Nat → Nat → BrowserVersion
  | MajorMinorPatch : Nat → Nat → Nat → BrowserVersion
deriving DecidableEq

/-- From<BrowserVersion> for u32 in settings.rs: normalize to a triple,
    then pack as (major and 0xff) shifted 16, or (minor and 0xff) shifted 8,
    or (patch and 0xff). -/
def BrowserVersion.toU32 (value : BrowserVersion) : Nat :=
  let version :=
    match value with
    | BrowserVersion.Major major => (major, 0, 0)
    | BrowserVersion.MajorSingleValueArray major => (major, 0, 0)
    | BrowserVersion.MajorMinor major minor => (major, minor, 0)
    | BrowserVersion.MajorMinorPatch major minor patch => (major, minor, patch)
  ((version.1 &&& 0xff) <<< 16) ||| ((version.2.1 &&& 0xff) <<< 8) ||| (version.2.2 &&& 0xff)

/-- BrowserVersions from settings.rs: nine optional per-family versions. -/
structure BrowserVersions where
  android : Option BrowserVersion
  chrome : Option BrowserVersion
  edge : Option BrowserVersion
  firefox : Option BrowserVersion
  ie : Option BrowserVersion
  ios_saf : Option BrowserVersion
  opera : Option BrowserVersion
  safari : Option BrowserVersion
  samsung : Option BrowserVersion
deriving DecidableEq

/-- lightningcss::targets::Browsers: nine optional encoded versions
    (external target type of the From conversion in settings.rs). -/
structure Browsers where
  android : Option Nat
  chrome : Option Nat
  edge : Option Nat
  firefox : Option Nat
  ie : Option Nat
  ios_saf : Option Nat
  opera : Option Nat
  safari : Option Nat
  samsung : Option Nat
deriving DecidableEq

/-- From<BrowserVersions> for Browsers in settings.rs: each family is
    mapped independently through the version encoder. -/
def BrowserVersions.toBrowsers (value : BrowserVersions) : Browsers :=
  { android := value.android.map BrowserVersion.toU32
    chrome := value.chrome.map BrowserVersion.toU32
    edge := value.edge.map BrowserVersion.toU32
    firefox := value.firefox.map BrowserVersion.toU32
    ie := value.ie.map BrowserVersion.toU32
    ios_saf := value.ios_saf.map BrowserVersion.toU32
    opera := value.opera.map BrowserVersion.toU32
    safari := value.safari.map BrowserVersion.toU32
    samsung := value.samsung.map BrowserVersion.toU32 }

/-- Settings from settings.rs. -/
structure Settings where
  debug : Bool
  minify : Bool
  load_paths : List String
  browser_targets : Option BrowserVersions
  class_names : ClassNameGeneration
  file_output : Option FileOutput
deriving DecidableEq

/-- Default for Settings from settings.rs. -/
def Settings.default : Settings :=
  { debug := false
    minify := DEFAULT_MINIFY
    load_paths := []
    browser_targets := none
    class_names := ClassNameGeneration.default
    file_output := none }

/-- Settings::choose_settings from settings.rs: first if-let on
    (dev.or(prod), is_debug_build) against (Some cfg, true), then on
    (prod, is_debug_build) against (Some cfg, false), else default. -/
def Settings.choose_settings (dev : Option Settings) (prod : Option Settings)
    (is_debug_build : Bool) : Settings :=
  match Option.or dev prod, is_debug_build with
  | some cfg, true => cfg
  | _, _ =>
    match prod, is_debug_build with
    | some cfg, false => cfg
    | _, _ => Settings.default

/-- Modelled from the spec: the Path Canonicalizer's error
    (path_utils::PathResolutionError is not part of the excerpt); it is
    raised for a configured load path that does not exist or cannot be
    made absolute. -/
structure PathResolutionError where
  path : String
deriving DecidableEq

/-- Settings::canonicalized_load_paths from settings.rs: map the
    canonicalizer over load_paths and collect, stopping at the first
    error.  The canonicalizer itself is filesystem-dependent and is
    passed as a parameter. -/
def Settings.canonicalized_load_paths
    (canonicalize : String → Except PathResolutionError String)
    (s : Settings) : Except PathResolutionError (List String) :=
  s.load_paths.mapM canonicalize

/-- grass::OutputStyle (external): expanded or compressed. -/
inductive OutputStyle where
  | expanded
  | compressed
deriving DecidableEq

/-- The fields of grass::Options that the conversion in settings.rs
    touches: output style and load paths. -/
structure GrassOptions where
  style : OutputStyle
  load_paths : List String
deriving DecidableEq

/-- TryFrom<Settings> for grass::Options in settings.rs: canonicalize all
    load paths first (propagating a PathResolutionError), then build the
    options with expanded style and the canonicalized paths. -/
def Settings.tryIntoGrassOptions
    (canonicalize : String → Except PathResolutionError String)
    (val : Settings) : Except PathResolutionError GrassOptions := do
  let paths ← Settings.canonicalized_load_paths canonicalize val
  Except.ok { style := OutputStyle.expanded, load_paths := paths }

/-- ManifestError from the manifest module (opaque payload). -/
structure ManifestError where
  message : String
deriving DecidableEq

/-- SettingsError from settings.rs: wraps a ManifestError. -/
structure SettingsError where
  cause : ManifestError
deriving DecidableEq

/-- Package metadata as read by the Manifest Loader: the optional turf
    (production) and turf-dev (development) profiles. -/
structure Metadata where
  turf : Option Settings
  turf_dev : Option Settings
deriving DecidableEq

/-- A manifest package entry with optional metadata. -/
structure Package where
  metadata : Option Metadata
deriving DecidableEq

/-- The cargo manifest with an optional package section. -/
structure Manifest where
  package : Option Package
deriving DecidableEq

/-- The process-wide state of the Settings Store: the TURF_SETTINGS and
    TURF_DEV_SETTINGS OnceLock cells, plus a count of Manifest Loader
    consultations (each call of manifest::cargo_manifest is one read). -/
structure SettingsStoreState where
  turf_settings : Option Settings
  turf_dev_settings : Option Settings
  manifest_reads : Nat
deriving DecidableEq

/-- The initial Settings Store state: both cells empty, no reads yet. -/
def SettingsStoreState.init : SettingsStoreState :=
  { turf_settings := none, turf_dev_settings := none, manifest_reads := 0 }

/-- Settings::dev_profile_settings from settings.rs, with the OnceLock
    cell and the manifest read threaded explicitly.  Modelled from the
    spec: manifest::cargo_manifest is not part of the excerpt; each of its
    invocations is one Manifest Loader consultation and yields the fixed
    per-process manifest value m. -/
def Settings.dev_profile_settings (m : Except ManifestError Manifest)
    (st : SettingsStoreState) :
    Except SettingsError (Option Settings) × SettingsStoreState :=
  match st.turf_dev_settings with
  | some v => (Except.ok (some v), st)
  | none =>
    let st := { st with manifest_reads := st.manifest_reads + 1 }
    match m with
    | Except.error e => (Except.error { cause := e }, st)
    | Except.ok manifest =>
      let dev_settings_maybe :=
        (manifest.package.bind Package.metadata).bind Metadata.turf_dev
      match dev_settings_maybe with
      | some v => (Except.ok (some v), { st with turf_dev_settings := some v })
      | none => (Except.ok none, st)

/-- Settings::prod_profile_settings from settings.rs, threaded like the
    development variant but over the TURF_SETTINGS cell and the turf
    metadata entry. -/
def Settings.prod_profile_settings (m : Except ManifestError Manifest)
    (st : SettingsStoreState) :
    Except SettingsError (Option Settings) × SettingsStoreState :=
  match st.turf_settings with
  | some v => (Except.ok (some v), st)
  | none =>
    let st := { st with manifest_reads := st.manifest_reads + 1 }
    match m with
    | Except.error e => (Except.error { cause := e }, st)
    | Except.ok manifest =>
      let prod_settings_maybe :=
        (manifest.package.bind Package.metadata).bind Metadata.turf
      match prod_settings_maybe with
      | some v => (Except.ok (some v), { st with turf_settings := some v })
      | none => (Except.ok none, st)

/-- A std::error::Error trait object as seen by to_compile_error in
    turf_macros/src/lib.rs: its own message and the messages of the chain
    of causes obtained by repeatedly calling source(). -/
structure DynError where
  message : String
  causes : List String
deriving DecidableEq

/-- to_compile_error from turf_macros/src/lib.rs, restricted to the
    diagnostic string it embeds in compile_error: start from the message
    with the Error prefix, append the Caused-by header when a source
    exists, then append one indented line per cause of the chain. -/
def to_compile_error_message (e : DynError) : String :=
  let message := "Error: " ++ e.message
  let message :=
    if e.causes.isEmpty then message else message ++ "\nCaused by:"
  e.causes.foldl (fun acc current_error => acc ++ "\n    " ++ current_error) message

/-- Modelled from the spec: the rendering of a cause chain as one
    indented line per cause, used to state what the loop in
    to_compile_error produces. -/
def causeChainBlock : List String → String
  | [] => ""
  | c :: rest => "\n    " ++ c ++ causeChainBlock rest

/-- StyleSheetKind from turf_internals (spec section 3): a file path or an
    inline stylesheet text. -/
inductive StyleSheetKind where
  | File : String → StyleSheetKind
  | Inline : String → StyleSheetKind
deriving DecidableEq

/-- Modelled from the spec: turf_internals::Error, the compilation error
    channel of the core (its body is not part of the excerpt); carried
    opaquely. -/
structure TurfError where
  message : String
deriving DecidableEq

/-- Modelled from the spec: turf_internals::LoadPathTrackingError, the
    dependency-tracking error channel (its body is not part of the
    excerpt); carried opaquely. -/
structure LoadPathTrackingError where
  message : String
deriving DecidableEq

/-- CompiledStyleSheet from turf_internals (spec section 3): final CSS,
    the class-name map, and the original StyleSheetKind returned so the
    caller can recover the primary file path. -/
structure CompiledStyleSheet where
  css : String
  class_names : List (String × String)
  original_style_sheet : StyleSheetKind
deriving DecidableEq

/-- Error from turf_macros/src/lib.rs: the two distinct error channels of
    the macro front end. -/
inductive Error where
  | Turf : TurfError → Error
  | LoadPathTracking : LoadPathTrackingError → Error
deriving DecidableEq

/-- ProcessedStyleSheet from turf_macros/src/lib.rs. -/
structure ProcessedStyleSheet where
  untracked_load_paths : List String
  css : String
  class_names : List (String × String)
deriving DecidableEq

/-- handle_style_sheet from turf_macros/src/lib.rs, with the two
    turf_internals entry points passed as parameters: style_sheet (the
    compilation orchestrator) and get_untracked_load_paths (the
    dependency tracker).  Compilation errors map to Error.Turf, tracking
    errors to Error.LoadPathTracking; for a File-sourced compilation the
    primary path is pushed after the tracker's output. -/
def handle_style_sheet
    (style_sheet_fn : StyleSheetKind → Except TurfError CompiledStyleSheet)
    (get_untracked_load_paths : Except LoadPathTrackingError (List String))
    (style_sheet : StyleSheetKind) : Except Error ProcessedStyleSheet :=
  match style_sheet_fn style_sheet with
  | Except.error e => Except.error (Error.Turf e)
  | Except.ok compiled =>
    match get_untracked_load_paths with
    | Except.error e => Except.error (Error.LoadPathTracking e)
    | Except.ok values =>
      let untracked_load_paths :=
        match compiled.original_style_sheet with
        | StyleSheetKind.File current_file_path => values ++ [current_file_path]
        | StyleSheetKind.Inline _ => values
      Except.ok
        { untracked_load_paths := untracked_load_paths
          css := compiled.css
          class_names := compiled.class_names }

/-- The primary-path contribution of a stylesheet source: its path for a
    File source, nothing for an Inline source. -/
def primaryPathList : StyleSheetKind → List String
  | StyleSheetKind.File p => [p]
  | StyleSheetKind.Inline _ => []

/-- A concrete browser-target input used to instantiate the conversion
    theorems. -/
def sampleBrowserVersions : BrowserVersions :=
  { android := some (BrowserVersion.Major 5)
    chrome := none
    edge := none
    firefox := none
    ie := none
    ios_saf := none
    opera := none
    safari := none
    samsung := none }

/-- A concrete canonicalizer that succeeds on every path. -/
def identityCanonicalize : String → Except PathResolutionError String :=
  fun p => Except.ok p

/-- Settings with one configured load path, for instantiating the option
    conversion theorems. -/
def sampleLoadPathSettings : Settings :=
  { Settings.default with load_paths := ["styles"] }

/-- The grass options produced for sampleLoadPathSettings under the
    identity canonicalizer. -/
def sampleGrassOptions : GrassOptions :=
  { style := OutputStyle.expanded, load_paths := ["styles"] }

/-- A compilation stub that succeeds and returns its input as the
    original stylesheet, for instantiating the front-end theorems. -/
def sampleCompile : StyleSheetKind → Except TurfError CompiledStyleSheet :=
  fun k => Except.ok { css := "body", class_names := [], original_style_sheet := k }

/-- A tracker stub that reports one auxiliary dependency. -/
def sampleTrackerOk : Except LoadPathTrackingError (List String) :=
  Except.ok ["dep.scss"]

/-- A tracking error used to instantiate the front-end theorems. -/
def sampleTrackingError : LoadPathTrackingError :=
  { message := "tracking failed" }

/-- A tracker stub that fails with sampleTrackingError. -/
def sampleTrackerErr : Except LoadPathTrackingError (List String) :=
  Except.error sampleTrackingError

/-- The processed output for a File-sourced compilation under the sample
    stubs. -/
def sampleProcessed : ProcessedStyleSheet :=
  { untracked_load_paths := ["dep.scss", "main.scss"]
    css := "body"
    class_names := [] }

/-- A manifest whose metadata carries neither profile. -/
def noProfileManifest : Except ManifestError Manifest :=
  Except.ok { package := some { metadata := some { turf := none, turf_dev := none } } }

/-- A manifest carrying both profiles. -/
def bothProfilesManifest : Except ManifestError Manifest :=
  Except.ok
    { package := some
        { metadata := some
            { turf := some Settings.default, turf_dev := some Settings.default } } }

/-- A sample error with a nonempty cause chain, for instantiating the
    diagnostic theorems. -/
def sampleChainError : DynError :=
  { message := "boom", causes := ["inner"] }

/-- A sample error with no cause, for instantiating the diagnostic
    theorems. -/
def sampleLeafError : DynError :=
  { message := "boom", causes := [] }

/-- Masking a natural number with 255 is reduction modulo 256. -/
theorem nat_and_255_eq_mod (x : Nat) : x &&& 255 = x % 256 := by
  have h := Nat.and_pow_two_sub_one_eq_mod x 8
  norm_num at h
  exact h

/-- A shifted value ored with a small addend is their sum. -/
theorem nat_or_eq_add_of_lt (a b k : Nat) (h : b < 2 ^ k) :
    (a <<< k) ||| b = a * 2 ^ k + b := by
  have h2 := Nat.mul_add_lt_is_or h a
  calc (a <<< k) ||| b = 2 ^ k * a ||| b := by rw [Nat.shiftLeft_eq, Nat.mul_comm]
    _ = 2 ^ k * a + b := h2.symm
    _ = a * 2 ^ k + b := by rw [Nat.mul_comm]

/-- The packed browser version, written as plain arithmetic. -/
theorem browser_pack_arith (M m p : Nat) :
    BrowserVersion.toU32 (BrowserVersion.MajorMinorPatch M m p)
      = (M % 256) * 65536 + (m % 256) * 256 + p % 256 := by
  have hp : p % 256 < 2 ^ 8 := Nat.mod_lt _ (by norm_num)
  have hmp : (m % 256) * 2 ^ 8 + p % 256 < 2 ^ 16 := by
    have hp2 : p % 256 < 256 := Nat.mod_lt _ (by norm_num)
    have hm2 : m % 256 < 256 := Nat.mod_lt _ (by norm_num)
    norm_num
    omega
  show ((M &&& 255) <<< 16) ||| ((m &&& 255) <<< 8) ||| (p &&& 255)
      = (M % 256) * 65536 + (m % 256) * 256 + p % 256
  rw [nat_and_255_eq_mod, nat_and_255_eq_mod, nat_and_255_eq_mod, Nat.or_assoc,
      nat_or_eq_add_of_lt (m % 256) (p % 256) 8 hp,
      nat_or_eq_add_of_lt (M % 256) ((m % 256) * 2 ^ 8 + p % 256) 16 hmp]
  norm_num
  omega

/-- Folding the cause-appending step over a list starting from any prefix
    yields the prefix followed by the rendered chain block. -/
theorem foldl_append_causeChainBlock (l : List String) (init : String) :
    l.foldl (fun acc current_error => acc ++ "\n    " ++ current_error) init
      = init ++ causeChainBlock l := by
  induction l generalizing init with
  | nil => simp [causeChainBlock]
  | cons c rest ih =>
    rw [List.foldl_cons, ih]
    simp [causeChainBlock, String.append_assoc]

/-- The rendered chain block distributes over list append. -/
theorem causeChainBlock_append (l1 l2 : List String) :
    causeChainBlock (l1 ++ l2) = causeChainBlock l1 ++ causeChainBlock l2 := by
  induction l1 with
  | nil => simp [causeChainBlock]
  | cons c rest ih => simp [causeChainBlock, ih, String.append_assoc]

/-- A successful Except-valued mapM relates inputs and outputs pointwise. -/
theorem mapM_except_ok_forall2 {α β γ : Type} (f : α → Except γ β) :
    ∀ (l : List α) (r : List β), l.mapM f = Except.ok r →
      List.Forall₂ (fun a b => f a = Except.ok b) l r := by
  intro l
  induction l with
  | nil =>
    intro r h
    rw [List.mapM_nil] at h
    cases h
    exact List.Forall₂.nil
  | cons a l ih =>
    intro r h
    rw [List.mapM_cons] at h
    cases hfa : f a with
    | error e => rw [hfa] at h; simp [Bind.bind, Except.bind] at h
    | ok b =>
      rw [hfa] at h
      cases hml : l.mapM f with
      | error e => rw [hml] at h; simp [Bind.bind, Except.bind] at h
      | ok bs =>
        rw [hml] at h
        simp only [Bind.bind, Except.bind, pure, Except.pure] at h
        cases h
        exact List.Forall₂.cons hfa (ih bs hml)

/-- An Except-valued mapM that fails does so on some element of the list. -/
theorem mapM_except_error_mem {α β γ : Type} (f : α → Except γ β) :
    ∀ (l : List α) (e : γ), l.mapM f = Except.error e → ∃ a ∈ l, f a = Except.error e := by
  intro l
  induction l with
  | nil =>
    intro e h
    rw [List.mapM_nil] at h
    simp [pure, Except.pure] at h
  | cons a l ih =>
    intro e h
    rw [List.mapM_cons] at h
    cases hfa : f a with
    | error e2 =>
      rw [hfa] at h
      simp only [Bind.bind, Except.bind] at h
      cases h
      exact ⟨a, by simp, hfa⟩
    | ok b =>
      rw [hfa] at h
      cases hml : l.mapM f with
      | error e2 =>
        rw [hml] at h
        simp only [Bind.bind, Except.bind] at h
        cases h
        obtain ⟨x, hx, hfx⟩ := ih _ hml
        exact ⟨x, by simp [hx], hfx⟩
      | ok bs =>
        rw [hml] at h
        simp [Bind.bind, Except.bind, pure, Except.pure] at h

/-- A pointwise relation between two lists gives a partner for every
    element of the left list. -/
theorem forall2_mem_left {α β : Type} {R : α → β → Prop} :
    ∀ {l : List α} {r : List β}, List.Forall₂ R l r → ∀ a ∈ l, ∃ b, R a b := by
  intro l r h
  induction h with
  | nil => intro a ha; simp at ha
  | cons hR hrest ih =>
    intro x hx
    rcases List.mem_cons.mp hx with h1 | h2
    · exact ⟨_, h1 ▸ hR⟩
    · exact ih x h2

/-- C1: choose_settings returns the development profile exactly when the
    build is a development build and that profile is present; otherwise
    the production profile when present; otherwise the default Settings.
    In particular, with the development flag false the result never
    depends on the development profile. -/
theorem choose_settings_spec (dev prod : Option Settings) (is_dev : Bool) :
    Settings.choose_settings dev prod is_dev
        = (if is_dev && dev.isSome then dev.getD Settings.default
           else if prod.isSome then prod.getD Settings.default
           else Settings.default)
  ∧ Settings.choose_settings dev prod false
      = Settings.choose_settings none prod false := by
  cases dev <;> cases prod <;> cases is_dev <;>
    simp [Settings.choose_settings, Option.or]

/-- C3: the u32 encoding of every BrowserVersion shape normalizes missing
    components to 0 and packs major, minor and patch modulo 256 into the
    three bytes of a 24-bit value; Major 5, MajorMinor 5 30 and
    MajorMinorPatch 1 2 3 encode to 0x050000, 0x051E00 and 0x010203, and
    components of 256 or more truncate to their low byte. -/
theorem browser_version_encoding_spec (M m p : Nat) :
    BrowserVersion.toU32 (BrowserVersion.Major M)
        = BrowserVersion.toU32 (BrowserVersion.MajorMinorPatch M 0 0)
  ∧ BrowserVersion.toU32 (BrowserVersion.MajorSingleValueArray M)
        = BrowserVersion.toU32 (BrowserVersion.MajorMinorPatch M 0 0)
  ∧ BrowserVersion.toU32 (BrowserVersion.MajorMinor M m)
        = BrowserVersion.toU32 (BrowserVersion.MajorMinorPatch M m 0)
  ∧ BrowserVersion.toU32 (BrowserVersion.MajorMinorPatch M m p)
        = (M % 256) * 65536 + (m % 256) * 256 + p % 256
  ∧ BrowserVersion.toU32 (BrowserVersion.MajorMinorPatch M m p)
        = BrowserVersion.toU32
            (BrowserVersion.MajorMinorPatch (M % 256) (m % 256) (p % 256))
  ∧ BrowserVersion.toU32 (BrowserVersion.Major 5) = 0x050000
  ∧ BrowserVersion.toU32 (BrowserVersion.MajorMinor 5 30) = 0x051E00
  ∧ BrowserVersion.toU32 (BrowserVersion.MajorMinorPatch 1 2 3) = 0x010203 := by
  refine ⟨rfl, rfl, rfl, browser_pack_arith M m p, ?_, by decide, by decide, by decide⟩
  rw [browser_pack_arith, browser_pack_arith]
  omega

/-- C9: the default Settings value has debug false, minify true, empty
    load paths, no browser targets, no file output, and the default
    class-name policy with template class-<id> and no excludes. -/
theorem default_settings_spec :
    Settings.default.debug = false
  ∧ Settings.default.minify = true
  ∧ Settings.default.load_paths = []
  ∧ Settings.default.browser_targets = none
  ∧ Settings.default.file_output = none
  ∧ Settings.default.class_names.template = "class-<id>"
  ∧ Settings.default.class_names.excludes = [] :=
  ⟨rfl, rfl, rfl, rfl, rfl, rfl, rfl⟩

/-- C4: the build-time diagnostic is the Error-prefixed top-level message
    followed, under a Caused-by header, by one indented line per cause of
    the chain; no cause of the chain is omitted from the rendering. -/
theorem compile_error_diagnostic_chain_spec (e : DynError) :
    to_compile_error_message e
        = "Error: " ++ e.message
            ++ (if e.causes.isEmpty then ""
                else "\nCaused by:" ++ causeChainBlock e.causes)
  ∧ ∀ c ∈ e.causes, ∃ s t,
      to_compile_error_message e = s ++ ("\n    " ++ c) ++ t := by
  obtain ⟨msg, l⟩ := e
  have h1 : to_compile_error_message { message := msg, causes := l }
      = "Error: " ++ msg
          ++ (if l.isEmpty then "" else "\nCaused by:" ++ causeChainBlock l) := by
    unfold to_compile_error_message
    cases l with
    | nil => simp [causeChainBlock]
    | cons c rest =>
      rw [foldl_append_causeChainBlock]
      simp [String.append_assoc]
  refine ⟨h1, ?_⟩
  intro c hc
  simp only at hc
  obtain ⟨l1, l2, hsplit⟩ := List.append_of_mem hc
  refine ⟨"Error: " ++ msg ++ "\nCaused by:" ++ causeChainBlock l1,
          causeChainBlock l2, ?_⟩
  rw [h1]
  simp only [hsplit]
  rw [causeChainBlock_append]
  simp [causeChainBlock, String.append_assoc]

/-- C10: for an error whose source chain is empty the diagnostic is
    exactly the Error-prefixed message, with no Caused-by header. -/
theorem compile_error_no_cause_spec (e : DynError) (h : e.causes = []) :
    to_compile_error_message e = "Error: " ++ e.message := by
  obtain ⟨msg, l⟩ := e
  simp only at h
  subst h
  unfold to_compile_error_message
  simp

/-- Witness for C4 at a concrete error with one cause. -/
theorem compile_error_diagnostic_chain_witness :
    ∃ s t, to_compile_error_message sampleChainError = s ++ ("\n    " ++ "inner") ++ t :=
  (compile_error_diagnostic_chain_spec sampleChainError).2 "inner" (by simp [sampleChainError])

/-- Witness for C10 at a concrete error with no cause. -/
theorem compile_error_no_cause_witness :
    to_compile_error_message sampleLeafError = "Error: " ++ sampleLeafError.message :=
  compile_error_no_cause_spec sampleLeafError rfl

/-- Mapping an encoder over an optional version preserves absence and
    encodes a present value. -/
theorem option_map_encode_spec {α β : Type} (f : α → β) (o : Option α) :
    (o.map f = none ↔ o = none) ∧ ∀ a, o = some a → o.map f = some (f a) := by
  cases o <;> simp

/-- C8: converting the per-family browser targets encodes each of the
    nine families independently; an absent family stays none and a
    present one becomes exactly its encoded version. -/
theorem browsers_conversion_spec (v : BrowserVersions) :
    ((v.toBrowsers.android = none ↔ v.android = none)
      ∧ ∀ bv, v.android = some bv → v.toBrowsers.android = some bv.toU32)
  ∧ ((v.toBrowsers.chrome = none ↔ v.chrome = none)
      ∧ ∀ bv, v.chrome = some bv → v.toBrowsers.chrome = some bv.toU32)
  ∧ ((v.toBrowsers.edge = none ↔ v.edge = none)
      ∧ ∀ bv, v.edge = some bv → v.toBrowsers.edge = some bv.toU32)
  ∧ ((v.toBrowsers.firefox = none ↔ v.firefox = none)
      ∧ ∀ bv, v.firefox = some bv → v.toBrowsers.firefox = some bv.toU32)
  ∧ ((v.toBrowsers.ie = none ↔ v.ie = none)
      ∧ ∀ bv, v.ie = some bv → v.toBrowsers.ie = some bv.toU32)
  ∧ ((v.toBrowsers.ios_saf = none ↔ v.ios_saf = none)
      ∧ ∀ bv, v.ios_saf = some bv → v.toBrowsers.ios_saf = some bv.toU32)
  ∧ ((v.toBrowsers.opera = none ↔ v.opera = none)
      ∧ ∀ bv, v.opera = some bv → v.toBrowsers.opera = some bv.toU32)
  ∧ ((v.toBrowsers.safari = none ↔ v.safari = none)
      ∧ ∀ bv, v.safari = some bv → v.toBrowsers.safari = some bv.toU32)
  ∧ ((v.toBrowsers.samsung = none ↔ v.samsung = none)
      ∧ ∀ bv, v.samsung = some bv → v.toBrowsers.samsung = some bv.toU32) :=
  ⟨option_map_encode_spec BrowserVersion.toU32 v.android,
   option_map_encode_spec BrowserVersion.toU32 v.chrome,
   option_map_encode_spec BrowserVersion.toU32 v.edge,
   option_map_encode_spec BrowserVersion.toU32 v.firefox,
   option_map_encode_spec BrowserVersion.toU32 v.ie,
   option_map_encode_spec BrowserVersion.toU32 v.ios_saf,
   option_map_encode_spec BrowserVersion.toU32 v.opera,
   option_map_encode_spec BrowserVersion.toU32 v.safari,
   option_map_encode_spec BrowserVersion.toU32 v.samsung⟩

/-- Witness for C8 at a concrete target set with one present family. -/
theorem browsers_conversion_witness :
    sampleBrowserVersions.toBrowsers.android
      = some (BrowserVersion.toU32 (BrowserVersion.Major 5)) :=
  (browsers_conversion_spec sampleBrowserVersions).1.2 (BrowserVersion.Major 5) rfl

/-- C5: converting Settings to stylesheet-engine options canonicalizes
    every configured load path first and fails with a PathResolution
    error exactly when some load path cannot be canonicalized, before any
    engine options exist; on success the options carry expanded output
    formatting and exactly the canonicalized load paths. -/
theorem grass_options_conversion_spec
    (canonicalize : String → Except PathResolutionError String) (s : Settings) :
    ((∃ o, Settings.tryIntoGrassOptions canonicalize s = Except.ok o)
        ↔ ∀ p ∈ s.load_paths, ∃ q, canonicalize p = Except.ok q)
  ∧ ∀ o, Settings.tryIntoGrassOptions canonicalize s = Except.ok o →
      o.style = OutputStyle.expanded
        ∧ List.Forall₂ (fun p q => canonicalize p = Except.ok q)
            s.load_paths o.load_paths := by
  unfold Settings.tryIntoGrassOptions Settings.canonicalized_load_paths
  cases hm : s.load_paths.mapM canonicalize with
  | error e =>
    simp only [Bind.bind, Except.bind]
    refine ⟨⟨fun h => absurd h (by simp), fun hall => ?_⟩, fun o ho => by simp at ho⟩
    obtain ⟨p, hp, hfp⟩ := mapM_except_error_mem canonicalize s.load_paths e hm
    obtain ⟨q, hq⟩ := hall p hp
    rw [hfp] at hq
    exact absurd hq (by simp)
  | ok r =>
    simp only [Bind.bind, Except.bind]
    have hforall := mapM_except_ok_forall2 canonicalize s.load_paths r hm
    refine ⟨⟨fun _ => forall2_mem_left hforall, fun _ => ⟨_, rfl⟩⟩, fun o ho => ?_⟩
    injection ho with h2
    subst h2
    exact ⟨rfl, hforall⟩

/-- Witness for C5 at a one-path configuration under an identity
    canonicalizer. -/
theorem grass_options_conversion_witness :
    sampleGrassOptions.style = OutputStyle.expanded
      ∧ List.Forall₂ (fun p q => identityCanonicalize p = Except.ok q)
          sampleLoadPathSettings.load_paths sampleGrassOptions.load_paths :=
  (grass_options_conversion_spec identityCanonicalize sampleLoadPathSettings).2
    sampleGrassOptions (by rfl)


/-- C6: on a successful run the dependency list handed to code
    generation is the tracker's output followed by the primary file path
    exactly when the source was the File variant, and the tracker's
    output alone for an Inline source. -/
theorem primary_path_dependency_spec
    (style_sheet_fn : StyleSheetKind → Except TurfError CompiledStyleSheet)
    (get_untracked : Except LoadPathTrackingError (List String))
    (sheet : StyleSheetKind) (r : ProcessedStyleSheet)
    (hpreserve : ∀ k cs, style_sheet_fn k = Except.ok cs → cs.original_style_sheet = k)
    (hr : handle_style_sheet style_sheet_fn get_untracked sheet = Except.ok r) :
    ∃ deps, get_untracked = Except.ok deps
      ∧ r.untracked_load_paths = deps ++ primaryPathList sheet := by
  unfold handle_style_sheet at hr
  cases hcs : style_sheet_fn sheet with
  | error e => rw [hcs] at hr; simp at hr
  | ok compiled =>
    rw [hcs] at hr
    cases hg : get_untracked with
    | error e => rw [hg] at hr; simp at hr
    | ok values =>
      rw [hg] at hr
      have horig := hpreserve sheet compiled hcs
      refine ⟨values, rfl, ?_⟩
      injection hr with h2
      subst h2
      subst horig
      cases hos : compiled.original_style_sheet with
      | File p => simp [primaryPathList]
      | Inline t => simp [primaryPathList]

/-- Witness for C6 at a File-sourced compilation under the sample
    stubs. -/
theorem primary_path_dependency_witness :
    ∃ deps, sampleTrackerOk = Except.ok deps
      ∧ sampleProcessed.untracked_load_paths
          = deps ++ primaryPathList (StyleSheetKind.File "main.scss") :=
  primary_path_dependency_spec sampleCompile sampleTrackerOk
    (StyleSheetKind.File "main.scss") sampleProcessed
    (by intro k cs h; injection h with h2; subst h2; rfl)
    (by rfl)

/-- C7: the front end reports compilation failures and tracking failures
    on two disjoint channels: a Turf error is returned exactly when the
    compilation itself failed, and a LoadPathTracking error is returned
    exactly when compilation succeeded and only the tracker failed, so
    the compiled artifact exists whenever a tracking error is reported. -/
theorem error_channel_separation_spec
    (style_sheet_fn : StyleSheetKind → Except TurfError CompiledStyleSheet)
    (get_untracked : Except LoadPathTrackingError (List String))
    (sheet : StyleSheetKind) :
    (∀ e, handle_style_sheet style_sheet_fn get_untracked sheet
        = Except.error (Error.Turf e) → style_sheet_fn sheet = Except.error e)
  ∧ (∀ e, handle_style_sheet style_sheet_fn get_untracked sheet
        = Except.error (Error.LoadPathTracking e) →
          get_untracked = Except.error e
            ∧ ∃ cs, style_sheet_fn sheet = Except.ok cs)
  ∧ (∀ e, style_sheet_fn sheet = Except.error e →
      handle_style_sheet style_sheet_fn get_untracked sheet
        = Except.error (Error.Turf e))
  ∧ (∀ cs e, style_sheet_fn sheet = Except.ok cs →
      get_untracked = Except.error e →
        handle_style_sheet style_sheet_fn get_untracked sheet
          = Except.error (Error.LoadPathTracking e)) := by
  unfold handle_style_sheet
  cases hcs : style_sheet_fn sheet with
  | error e0 =>
    refine ⟨?_, ?_, ?_, ?_⟩
    · intro e h
      injection h with h2
      injection h2 with h3
      rw [h3]
    · intro e h
      injection h with h2
      simp at h2
    · intro e h
      injection h with h2
      subst h2
      rfl
    · intro cs e h hg2
      simp at h
  | ok compiled =>
    cases hg : get_untracked with
    | error e0 =>
      refine ⟨?_, ?_, ?_, ?_⟩
      · intro e h
        injection h with h2
        simp at h2
      · intro e h
        injection h with h2
        injection h2 with h3
        subst h3
        exact ⟨rfl, compiled, rfl⟩
      · intro e h
        simp at h
      · intro cs e h hg2
        injection hg2 with h2
        subst h2
        rfl
    | ok values =>
      refine ⟨?_, ?_, ?_, ?_⟩
      · intro e h
        simp at h
      · intro e h
        simp at h
      · intro e h
        simp at h
      · intro cs e h hg2
        simp at hg2

/-- Witness for C7: a tracking failure after a successful compilation is
    reported as a LoadPathTracking error. -/
theorem error_channel_separation_witness :
    handle_style_sheet sampleCompile sampleTrackerErr (StyleSheetKind.Inline "p")
      = Except.error (Error.LoadPathTracking sampleTrackingError) :=
  (error_channel_separation_spec sampleCompile sampleTrackerErr
      (StyleSheetKind.Inline "p")).2.2.2
    { css := "body", class_names := [], original_style_sheet := StyleSheetKind.Inline "p" }
    sampleTrackingError rfl rfl

/-- C2: resolving either profile slot twice from the initial state yields
    equal results both times, and when the slot's profile is present in
    the manifest the OnceLock cell is populated on the first resolution,
    so the Manifest Loader is consulted exactly once across both calls. -/
theorem settings_profile_cache_spec (m : Except ManifestError Manifest) :
    (Settings.dev_profile_settings m
        (Settings.dev_profile_settings m SettingsStoreState.init).2).1
      = (Settings.dev_profile_settings m SettingsStoreState.init).1
  ∧ (Settings.prod_profile_settings m
        (Settings.prod_profile_settings m SettingsStoreState.init).2).1
      = (Settings.prod_profile_settings m SettingsStoreState.init).1
  ∧ (∀ v, (Settings.dev_profile_settings m SettingsStoreState.init).1
        = Except.ok (some v) →
      (Settings.dev_profile_settings m
          (Settings.dev_profile_settings m SettingsStoreState.init).2).2.manifest_reads
        = 1)
  ∧ (∀ v, (Settings.prod_profile_settings m SettingsStoreState.init).1
        = Except.ok (some v) →
      (Settings.prod_profile_settings m
          (Settings.prod_profile_settings m SettingsStoreState.init).2).2.manifest_reads
        = 1) := by
  cases m with
  | error e =>
    simp [Settings.dev_profile_settings, Settings.prod_profile_settings,
      SettingsStoreState.init]
  | ok man =>
    obtain ⟨pk⟩ := man
    cases pk with
    | none =>
      simp [Settings.dev_profile_settings, Settings.prod_profile_settings,
        SettingsStoreState.init]
    | some pkg =>
      obtain ⟨md⟩ := pkg
      cases md with
      | none =>
        simp [Settings.dev_profile_settings, Settings.prod_profile_settings,
          SettingsStoreState.init]
      | some meta =>
        obtain ⟨turf_val, turf_dev_val⟩ := meta
        cases turf_val <;> cases turf_dev_val <;>
          simp [Settings.dev_profile_settings, Settings.prod_profile_settings,
            SettingsStoreState.init]

/-- Counterexample for C2 as stated: with a manifest that carries no
    development profile, resolving the development slot twice reads the
    manifest twice (the cell is never populated), although both
    resolutions return equal values. -/
theorem settings_profile_cache_counterexample :
    (Settings.dev_profile_settings noProfileManifest
        (Settings.dev_profile_settings noProfileManifest SettingsStoreState.init).2).2.manifest_reads
      = 2
  ∧ (Settings.dev_profile_settings noProfileManifest
        (Settings.dev_profile_settings noProfileManifest SettingsStoreState.init).2).1
      = (Settings.dev_profile_settings noProfileManifest SettingsStoreState.init).1 :=
  ⟨rfl, rfl⟩

/-- Witness for C2: with both profiles present the development slot is
    cached after the first resolution and the manifest is read once. -/
theorem settings_profile_cache_witness :
    (Settings.dev_profile_settings bothProfilesManifest
        (Settings.dev_profile_settings bothProfilesManifest SettingsStoreState.init).2).2.manifest_reads
      = 1 :=
  (settings_profile_cache_spec bothProfilesManifest).2.2.1 Settings.default rfl
